import Mathlib

/-!
# Button: debounce and press / long-press state machine

Shallow embedding of `src/Button.hpp` and `src/Button.cpp`.

* Machine integers are natural numbers, reduced modulo `2^8`, `2^16` or `2^32`
  at the places where the C++ code converts to `uint8_t`, `uint16_t` or
  `unsigned long` (32 bits on the Arduino targets of the library).
* A callback slot is `Option Nat`: `none` is `nullptr`, `some f` is the
  function `f`.  Calling a callback appends an `Event` to the trace that the
  operation returns; a slot that holds `nullptr` appends nothing.  Callbacks
  are external code and are taken not to call back into the button.
* The two collaborators of `read()` are inputs: the value returned by
  `digitalRead`, the value returned by the `millis()` call of `read()`, and the
  value returned by the `millis()` call of `setState()`.
* The two timestamp members are not initialised by the constructors; the
  constructors of the model take their indeterminate initial values as
  arguments.
-/

namespace ArduinoButton

/-! ## Constants -/

/-- Arduino level `LOW`. -/
def LOW : Nat := 0

/-- Arduino level `HIGH`. -/
def HIGH : Nat := 1

/-- Number of values of an `unsigned long` (32 bits). -/
def ULONG_RANGE : Nat := 4294967296

/-- Conversion of a non-negative value to `uint8_t`. -/
def toUInt8 (n : Nat) : Nat := n % 256

/-- Conversion of a non-negative value to `uint16_t`. -/
def toUInt16 (n : Nat) : Nat := n % 65536

/-- Conversion of a non-negative value to `unsigned long`. -/
def toULong (n : Nat) : Nat := n % ULONG_RANGE

/-- Conversion of a signed value to `uint8_t` (reduction modulo 256). -/
def intToUInt8 (n : Int) : Nat := (n % 256).toNat

/-- Conversion of a signed value to `uint16_t` (reduction modulo 65536). -/
def intToUInt16 (n : Int) : Nat := (n % 65536).toNat

/-- Unsigned subtraction `a - b` on `unsigned long`. -/
def subULong (a b : Nat) : Nat :=
  (a % ULONG_RANGE + (ULONG_RANGE - b % ULONG_RANGE)) % ULONG_RANGE

/-- Constant `DEFAULT_DEBOUNCE_DURATION` (an `int8_t`). -/
def DEFAULT_DEBOUNCE_DURATION : Int := 120

/-- Constant `DEFAULT_LONG_PRESS_THRESHOLD` (an `int16_t`). -/
def DEFAULT_LONG_PRESS_THRESHOLD : Int := 1000

/-- Constant `DEFAULT_PIN_STATE` (an `int8_t`). -/
def DEFAULT_PIN_STATE : Int := 0

/-- Constant `INVALID_PIN_NUMBER` (an `int8_t`). -/
def INVALID_PIN_NUMBER : Int := -1

/-! ## Data model -/

/-- Button states (`enum State`). -/
inductive State where
  | StateReleased
  | StatePressed
  | StateLongPressed
  deriving DecidableEq, Repr

/-- A callback slot: `none` is `nullptr`. -/
abbrev Callback := Option Nat

/-- One invocation of a registered callback. -/
inductive Event where
  | longPressed (f : Nat)
  | longPressReleased (f : Nat)
  | pressed (f : Nat)
  | released (f : Nat)
  | stateChanged (f : Nat) (s : State)
  deriving DecidableEq, Repr

/-- The data members of `class Button`. -/
structure Button where
  mLastPinStateChangeTime : Nat
  mLastPressedStateChangeTime : Nat
  mPinNumber : Nat
  mPinState : Nat
  mState : State
  mDebounceDuration : Nat
  mLongPressThreshold : Nat
  mOnLongPressedCallback : Callback
  mOnLongPressReleasedCallback : Callback
  mOnPressedCallback : Callback
  mOnReleasedCallback : Callback
  mOnStateChangedCallback : Callback
  deriving DecidableEq, Repr

/-- What one call of `read()` obtains from its collaborators. -/
structure Reading where
  /-- Value returned by `digitalRead(mPinNumber)`. -/
  digitalRead : Nat
  /-- Value returned by the `millis()` call in `read()`. -/
  millis : Nat
  /-- Value returned by the `millis()` call in `setState()`, when it is made. -/
  millisSetState : Nat
  deriving DecidableEq, Repr

/-! ## Constructors -/

/-- Default constructor `Button::Button()`; `t0` and `t1` are the indeterminate
initial contents of the two timestamp members. -/
def Button.new (t0 t1 : Nat) : Button :=
  { mLastPinStateChangeTime := t0
    mLastPressedStateChangeTime := t1
    mPinNumber := intToUInt8 INVALID_PIN_NUMBER
    mPinState := intToUInt8 DEFAULT_PIN_STATE
    mState := State.StateReleased
    mDebounceDuration := intToUInt8 DEFAULT_DEBOUNCE_DURATION
    mLongPressThreshold := intToUInt16 DEFAULT_LONG_PRESS_THRESHOLD
    mOnLongPressedCallback := none
    mOnLongPressReleasedCallback := none
    mOnPressedCallback := none
    mOnReleasedCallback := none
    mOnStateChangedCallback := none }

/-- Alternate constructor `Button::Button(const uint8_t aPinNumber)`; the call of
`begin()` at its end changes no data member. -/
def Button.newPin (aPinNumber t0 t1 : Nat) : Button :=
  { mLastPinStateChangeTime := t0
    mLastPressedStateChangeTime := t1
    mPinNumber := toUInt8 aPinNumber
    mPinState := intToUInt8 DEFAULT_PIN_STATE
    mState := State.StateReleased
    mDebounceDuration := intToUInt8 DEFAULT_DEBOUNCE_DURATION
    mLongPressThreshold := intToUInt16 DEFAULT_LONG_PRESS_THRESHOLD
    mOnLongPressedCallback := none
    mOnLongPressReleasedCallback := none
    mOnPressedCallback := none
    mOnReleasedCallback := none
    mOnStateChangedCallback := none }

/-- The pin that `Button::begin()` configures as `INPUT_PULLUP`, if any.  The
comparison promotes the `uint8_t` member and the `int8_t` constant to `int`. -/
def begin (b : Button) : Option Nat :=
  if (b.mPinNumber : Int) = INVALID_PIN_NUMBER then none else some b.mPinNumber

/-! ## Getters -/

/-- Getter `Button::getDebounceDuration()`, returning `uint8_t`. -/
def getDebounceDuration (b : Button) : Nat := toUInt8 b.mDebounceDuration

/-- Getter `Button::getLongPressThreshold()`, returning `uint8_t`. -/
def getLongPressThreshold (b : Button) : Nat := toUInt8 b.mLongPressThreshold

/-- Getter `Button::getPinNumber()`, returning `uint8_t`. -/
def getPinNumber (b : Button) : Nat := toUInt8 b.mPinNumber

/-- Getter `Button::getState()`. -/
def getState (b : Button) : State := b.mState

/-! ## Setters -/

/-- Setter `Button::setDebounceDuration(const uint8_t aDuration)`. -/
def setDebounceDuration (b : Button) (aDuration : Nat) : Button :=
  { b with mDebounceDuration := toUInt8 aDuration }

/-- Setter `Button::setLongPressThreshold(const uint8_t aThreshold)`. -/
def setLongPressThreshold (b : Button) (aThreshold : Nat) : Button :=
  { b with mLongPressThreshold := toUInt8 aThreshold }

/-- Setter `Button::setOnLongPressedCallback`. -/
def setOnLongPressedCallback (b : Button) (aCallback : Callback) : Button :=
  { b with mOnLongPressedCallback := aCallback }

/-- Setter `Button::setOnLongPressReleasedCallback`. -/
def setOnLongPressReleasedCallback (b : Button) (aCallback : Callback) : Button :=
  { b with mOnLongPressReleasedCallback := aCallback }

/-- Setter `Button::setOnPressedCallback`. -/
def setOnPressedCallback (b : Button) (aCallback : Callback) : Button :=
  { b with mOnPressedCallback := aCallback }

/-- Setter `Button::setOnReleasedCallback`. -/
def setOnReleasedCallback (b : Button) (aCallback : Callback) : Button :=
  { b with mOnReleasedCallback := aCallback }

/-- Setter `Button::setOnStateChangedCallback`. -/
def setOnStateChangedCallback (b : Button) (aCallback : Callback) : Button :=
  { b with mOnStateChangedCallback := aCallback }

/-- Setter `Button::setPinNumber(const uint8_t aPinNumber)`. -/
def setPinNumber (b : Button) (aPinNumber : Nat) : Button :=
  { b with mPinNumber := toUInt8 aPinNumber }

/-! ## Notifications -/

/-- Method `Button::notifyLongPressed()`. -/
def notifyLongPressed (b : Button) : List Event :=
  match b.mOnLongPressedCallback with
  | some f => [Event.longPressed f]
  | none => []

/-- Method `Button::notifyLongPressReleased()`. -/
def notifyLongPressReleased (b : Button) : List Event :=
  match b.mOnLongPressReleasedCallback with
  | some f => [Event.longPressReleased f]
  | none => []

/-- Method `Button::notifyPressed()`. -/
def notifyPressed (b : Button) : List Event :=
  match b.mOnPressedCallback with
  | some f => [Event.pressed f]
  | none => []

/-- Method `Button::notifyReleased()`. -/
def notifyReleased (b : Button) : List Event :=
  match b.mOnReleasedCallback with
  | some f => [Event.released f]
  | none => []

/-- Method `Button::notifyStateChange()`: the callback receives `mState`. -/
def notifyStateChange (b : Button) : List Event :=
  match b.mOnStateChangedCallback with
  | some f => [Event.stateChanged f b.mState]
  | none => []

/-! ## The state machine -/

/-- Method `Button::setState(const State aState)`; `millis` is what the call of
`millis()` returns when the pressed state is entered. -/
def setState (b : Button) (aState : State) (millis : Nat) : Button × List Event :=
  if b.mState ≠ aState then
    let r : Button × List Event :=
      if aState = State.StatePressed then
        ({ b with mLastPressedStateChangeTime := toULong millis }, notifyPressed b)
      else if aState = State.StateLongPressed then
        (b, notifyLongPressed b)
      else if aState = State.StateReleased then
        if b.mState ≠ State.StateLongPressed then
          (b, notifyReleased b)
        else
          (b, notifyLongPressReleased b)
      else
        (b, [])
    let b2 : Button := { r.1 with mState := aState }
    (b2, r.2 ++ notifyStateChange b2)
  else
    (b, [])

/-- Method `Button::read()`. -/
def read (b : Button) (r : Reading) : Button × List Event :=
  if (b.mPinNumber : Int) = INVALID_PIN_NUMBER then
    (b, [])
  else
    let newPinState := toUInt8 r.digitalRead
    let currentTime := toULong r.millis
    if b.mPinState ≠ newPinState then
      if subULong currentTime b.mLastPinStateChangeTime > b.mDebounceDuration then
        let b1 : Button :=
          { b with mPinState := newPinState, mLastPinStateChangeTime := currentTime }
        if b1.mPinState = LOW then
          setState b1 State.StatePressed r.millisSetState
        else
          setState b1 State.StateReleased r.millisSetState
      else
        (b, [])
    else if b.mState = State.StatePressed ∧
        subULong currentTime b.mLastPressedStateChangeTime > b.mLongPressThreshold then
      setState b State.StateLongPressed r.millisSetState
    else
      (b, [])

/-- A sequence of `read()` calls, with the concatenated trace. -/
def readAll (b : Button) : List Reading → Button × List Event
  | [] => (b, [])
  | r :: rs =>
    let s := read b r
    let t := readAll s.1 rs
    (t.1, s.2 ++ t.2)

/-! ## Traces, runs and reachable states -/

/-- Whether an event is an invocation of the generic state-change callback. -/
def Event.isStateChanged : Event → Bool
  | Event.stateChanged _ _ => true
  | _ => false

/-- The invocations of the four event callbacks in a trace. -/
def eventNotifications (es : List Event) : List Event :=
  es.filter (fun e => !e.isStateChanged)

/-- The invocations of the generic state-change callback in a trace. -/
def stateChangeNotifications (es : List Event) : List Event :=
  es.filter (fun e => e.isStateChanged)

/-- Consecutive reads of a sequence are taken less than `d` ms apart. -/
def closelySpaced (d : Nat) : List Reading → Bool
  | r :: s :: rs =>
    decide (r.millis ≤ s.millis ∧ s.millis - r.millis < d) && closelySpaced d (s :: rs)
  | _ => true

/-- States that a button constructed as `b0` can get into by calls of `read()`
and of the configuration setters. -/
inductive ReachableFrom (b0 : Button) : Button → Prop where
  | start : ReachableFrom b0 b0
  | read (b : Button) (r : Reading) :
      ReachableFrom b0 b → ReachableFrom b0 (read b r).1
  | setDebounceDuration (b : Button) (aDuration : Nat) :
      ReachableFrom b0 b → ReachableFrom b0 (setDebounceDuration b aDuration)
  | setLongPressThreshold (b : Button) (aThreshold : Nat) :
      ReachableFrom b0 b → ReachableFrom b0 (setLongPressThreshold b aThreshold)
  | setOnLongPressedCallback (b : Button) (aCallback : Callback) :
      ReachableFrom b0 b → ReachableFrom b0 (setOnLongPressedCallback b aCallback)
  | setOnLongPressReleasedCallback (b : Button) (aCallback : Callback) :
      ReachableFrom b0 b → ReachableFrom b0 (setOnLongPressReleasedCallback b aCallback)
  | setOnPressedCallback (b : Button) (aCallback : Callback) :
      ReachableFrom b0 b → ReachableFrom b0 (setOnPressedCallback b aCallback)
  | setOnReleasedCallback (b : Button) (aCallback : Callback) :
      ReachableFrom b0 b → ReachableFrom b0 (setOnReleasedCallback b aCallback)
  | setOnStateChangedCallback (b : Button) (aCallback : Callback) :
      ReachableFrom b0 b → ReachableFrom b0 (setOnStateChangedCallback b aCallback)
  | setPinNumber (b : Button) (aPinNumber : Nat) :
      ReachableFrom b0 b → ReachableFrom b0 (setPinNumber b aPinNumber)

/-- States reachable from a newly constructed button, by either constructor. -/
def Reachable (b : Button) : Prop :=
  (∃ t0 t1, ReachableFrom (Button.new t0 t1) b) ∨
    (∃ aPinNumber t0 t1, ReachableFrom (Button.newPin aPinNumber t0 t1) b)

/-- In the pressed and long-pressed states the stored pin level is `LOW`. -/
def PressedIsLow (b : Button) : Prop :=
  b.mState ≠ State.StateReleased → b.mPinState = LOW

/-! ## Operations, slots and frames -/

/-- The five callback slots of a button. -/
inductive Slot where
  | onLongPressed
  | onLongPressReleased
  | onPressed
  | onReleased
  | onStateChanged
  deriving DecidableEq, Repr

/-- The slot whose callback an event is an invocation of. -/
def Event.slot : Event → Slot
  | Event.longPressed _ => Slot.onLongPressed
  | Event.longPressReleased _ => Slot.onLongPressReleased
  | Event.pressed _ => Slot.onPressed
  | Event.released _ => Slot.onReleased
  | Event.stateChanged _ _ => Slot.onStateChanged

/-- The button with one slot set to `nullptr` through the setter of the slot. -/
def clearSlot (b : Button) : Slot → Button
  | Slot.onLongPressed => setOnLongPressedCallback b none
  | Slot.onLongPressReleased => setOnLongPressReleasedCallback b none
  | Slot.onPressed => setOnPressedCallback b none
  | Slot.onReleased => setOnReleasedCallback b none
  | Slot.onStateChanged => setOnStateChangedCallback b none

/-- Two buttons agree on the members that the state machine writes: the state,
the stored level and the two timestamps. -/
def sameMachine (b c : Button) : Prop :=
  c.mState = b.mState ∧ c.mPinState = b.mPinState ∧
  c.mLastPinStateChangeTime = b.mLastPinStateChangeTime ∧
  c.mLastPressedStateChangeTime = b.mLastPressedStateChangeTime

/-- Two buttons agree on every member that is not a callback slot. -/
def sameExceptCallbacks (b c : Button) : Prop :=
  sameMachine b c ∧ c.mPinNumber = b.mPinNumber ∧
  c.mDebounceDuration = b.mDebounceDuration ∧
  c.mLongPressThreshold = b.mLongPressThreshold

/-- A call of a public member function that changes the button. -/
inductive Op where
  | read (r : Reading)
  | setDebounceDuration (aDuration : Nat)
  | setLongPressThreshold (aThreshold : Nat)
  | setOnLongPressedCallback (aCallback : Callback)
  | setOnLongPressReleasedCallback (aCallback : Callback)
  | setOnPressedCallback (aCallback : Callback)
  | setOnReleasedCallback (aCallback : Callback)
  | setOnStateChangedCallback (aCallback : Callback)
  | setPinNumber (aPinNumber : Nat)
  deriving DecidableEq, Repr

/-- Whether the call is one of the eight setters. -/
def Op.isSetter : Op → Bool
  | Op.read _ => false
  | _ => true

/-- The button after a call, with the callbacks invoked during the call.  The
body of a setter is one assignment, so a setter invokes nothing. -/
def step (b : Button) : Op → Button × List Event
  | Op.read r => read b r
  | Op.setDebounceDuration a => (setDebounceDuration b a, [])
  | Op.setLongPressThreshold a => (setLongPressThreshold b a, [])
  | Op.setOnLongPressedCallback a => (setOnLongPressedCallback b a, [])
  | Op.setOnLongPressReleasedCallback a => (setOnLongPressReleasedCallback b a, [])
  | Op.setOnPressedCallback a => (setOnPressedCallback b a, [])
  | Op.setOnReleasedCallback a => (setOnReleasedCallback b a, [])
  | Op.setOnStateChangedCallback a => (setOnStateChangedCallback b a, [])
  | Op.setPinNumber a => (setPinNumber b a, [])

/-! ## Sample states -/

/-- A button on pin 2 with the five callbacks `1` to `5` registered, released,
whose last accepted level is `HIGH`, accepted at time 1000. -/
def sampleReleased : Button :=
  { mLastPinStateChangeTime := 1000
    mLastPressedStateChangeTime := 0
    mPinNumber := 2
    mPinState := HIGH
    mState := State.StateReleased
    mDebounceDuration := 120
    mLongPressThreshold := 1000
    mOnLongPressedCallback := some 1
    mOnLongPressReleasedCallback := some 2
    mOnPressedCallback := some 3
    mOnReleasedCallback := some 4
    mOnStateChangedCallback := some 5 }

/-- The same button after a press accepted at time 130. -/
def samplePressed : Button :=
  { sampleReleased with
    mLastPinStateChangeTime := 130
    mLastPressedStateChangeTime := 130
    mPinState := LOW
    mState := State.StatePressed }

/-- The same button once the long press has been detected. -/
def sampleLongPressed : Button :=
  { samplePressed with mState := State.StateLongPressed }

/-- The released sample button with its last accepted change 10 ms before the
clock wraps around. -/
def sampleBeforeWrap : Button :=
  { sampleReleased with mLastPinStateChangeTime := 4294967286 }

/-! ## Basic facts about `read` and `setState` -/

/-- The guard of `read()` never holds: a `uint8_t` promoted to `int` is not `-1`. -/
theorem pin_guard_false (b : Button) : ¬ ((b.mPinNumber : Int) = INVALID_PIN_NUMBER) := by
  unfold INVALID_PIN_NUMBER
  omega

/-- The body of `read()` below its guard. -/
theorem read_eq (b : Button) (r : Reading) :
    read b r =
      if b.mPinState ≠ toUInt8 r.digitalRead then
        if subULong (toULong r.millis) b.mLastPinStateChangeTime > b.mDebounceDuration then
          if toUInt8 r.digitalRead = LOW then
            setState { b with mPinState := toUInt8 r.digitalRead,
                              mLastPinStateChangeTime := toULong r.millis }
              State.StatePressed r.millisSetState
          else
            setState { b with mPinState := toUInt8 r.digitalRead,
                              mLastPinStateChangeTime := toULong r.millis }
              State.StateReleased r.millisSetState
        else (b, [])
      else if b.mState = State.StatePressed ∧
          subULong (toULong r.millis) b.mLastPressedStateChangeTime > b.mLongPressThreshold then
        setState b State.StateLongPressed r.millisSetState
      else (b, []) := by
  simp only [read, pin_guard_false, if_false]

/-- The state after `setState` is the target state. -/
theorem setState_mState (b : Button) (aState : State) (millis : Nat) :
    (setState b aState millis).1.mState = aState := by
  unfold setState
  by_cases h : b.mState = aState
  · simp [h]
  · simp [h]

/-- Calling `setState` with the current state changes nothing. -/
theorem setState_same (b : Button) (millis : Nat) :
    setState b b.mState millis = (b, []) := by
  simp [setState]

/-- The function `setState` touches neither the stored pin level nor the time of
the last accepted change nor the configuration. -/
theorem setState_frame (b : Button) (aState : State) (millis : Nat) :
    (setState b aState millis).1.mPinState = b.mPinState ∧
    (setState b aState millis).1.mLastPinStateChangeTime = b.mLastPinStateChangeTime ∧
    (setState b aState millis).1.mPinNumber = b.mPinNumber ∧
    (setState b aState millis).1.mDebounceDuration = b.mDebounceDuration ∧
    (setState b aState millis).1.mLongPressThreshold = b.mLongPressThreshold := by
  unfold setState
  by_cases h : b.mState = aState
  · simp [h]
  · cases aState <;> simp [h]
    split <;> simp

/-! ## Reachable states -/

/-- A newly constructed button, by either constructor, is released. -/
theorem new_pressedIsLow (aPinNumber t0 t1 : Nat) :
    PressedIsLow (Button.new t0 t1) ∧ PressedIsLow (Button.newPin aPinNumber t0 t1) := by
  constructor <;> intro h <;> exact absurd rfl h

/-- A call of `read()` keeps the stored level `LOW` in the pressed states. -/
theorem read_pressedIsLow (b : Button) (r : Reading) (h : PressedIsLow b) :
    PressedIsLow (read b r).1 := by
  unfold PressedIsLow at h ⊢
  rw [read_eq]
  cases hst : b.mState <;>
    split_ifs <;>
    simp_all [setState, notifyLongPressed, notifyLongPressReleased, notifyPressed,
      notifyReleased, notifyStateChange]

/-- Every state reachable from a state with `PressedIsLow` has it. -/
theorem reachableFrom_pressedIsLow (b0 b : Button) (h0 : PressedIsLow b0)
    (h : ReachableFrom b0 b) : PressedIsLow b := by
  induction h with
  | start => exact h0
  | read b r _ ih => exact read_pressedIsLow b r ih
  | setDebounceDuration b a _ ih => exact ih
  | setLongPressThreshold b a _ ih => exact ih
  | setOnLongPressedCallback b a _ ih => exact ih
  | setOnLongPressReleasedCallback b a _ ih => exact ih
  | setOnPressedCallback b a _ ih => exact ih
  | setOnReleasedCallback b a _ ih => exact ih
  | setOnStateChangedCallback b a _ ih => exact ih
  | setPinNumber b a _ ih => exact ih

/-- The released sample button is reachable from a button constructed on pin 2. -/
theorem sampleReleased_reachable :
    ReachableFrom (Button.newPin 2 0 0) sampleReleased := by
  have h := ReachableFrom.read _ ⟨HIGH, 1000, 1000⟩
    (ReachableFrom.setOnStateChangedCallback _ (some 5)
      (ReachableFrom.setOnReleasedCallback _ (some 4)
        (ReachableFrom.setOnPressedCallback _ (some 3)
          (ReachableFrom.setOnLongPressReleasedCallback _ (some 2)
            (ReachableFrom.setOnLongPressedCallback _ (some 1)
              (@ReachableFrom.start (Button.newPin 2 0 0)))))))
  have e : (read (setOnStateChangedCallback (setOnReleasedCallback (setOnPressedCallback
      (setOnLongPressReleasedCallback (setOnLongPressedCallback (Button.newPin 2 0 0)
        (some 1)) (some 2)) (some 3)) (some 4)) (some 5)) ⟨HIGH, 1000, 1000⟩).1
      = sampleReleased := by decide
  rw [e] at h
  exact h

/-- One read within the debounce window of the last accepted change either
changes nothing or is the long-press step. -/
theorem read_within_window (b : Button) (r : Reading)
    (hwin : subULong (toULong r.millis) b.mLastPinStateChangeTime ≤ b.mDebounceDuration) :
    read b r = (b, []) ∨
    (b.mState = State.StatePressed ∧
      (read b r).1 = { b with mState := State.StateLongPressed }) := by
  rw [read_eq]
  have hn := Nat.not_lt.mpr hwin
  cases hst : b.mState <;>
    split_ifs <;>
    simp_all [setState, notifyLongPressed, notifyLongPressReleased, notifyPressed,
      notifyReleased, notifyStateChange]

/-! ## The unbound button -/

/-- C1 (the code departs from the claim): a default-constructed button stores
pin number 255, which the guard of `read()` does not recognise as invalid, so
`read()` is not a no-op.  With the timestamp members holding 0, a read of
`HIGH` at time 200 changes the stored level and the time of the last change; a
following read of `LOW` at time 400 moves the state to pressed, and invokes the
pressed callback when one has been registered. -/
theorem read_default_constructed_not_inert :
    (Button.new 0 0).mPinNumber = 255 ∧
    read (Button.new 0 0) ⟨HIGH, 200, 200⟩ =
      ({ Button.new 0 0 with mPinState := HIGH, mLastPinStateChangeTime := 200 }, []) ∧
    (read (Button.new 0 0) ⟨HIGH, 200, 200⟩).1 ≠ Button.new 0 0 ∧
    (readAll (Button.new 0 0) [⟨HIGH, 200, 200⟩, ⟨LOW, 400, 400⟩]).1.mState
      = State.StatePressed ∧
    (readAll (setOnPressedCallback (Button.new 0 0) (some 3))
      [⟨HIGH, 200, 200⟩, ⟨LOW, 400, 400⟩]).2 = [Event.pressed 3] := by
  decide

/-! ## One call of `read()` -/

/-- C2: a read whose level differs from the stored level, taken more than the
debounce duration after the last accepted change, is accepted: the stored level
becomes the level read, the time of the last change becomes the time of the
read, the state becomes pressed for `LOW` and released otherwise, and when the
pressed state is newly entered the time of the last press becomes the clock
value read in `setState`. -/
theorem read_accepts_level_change (b : Button) (r : Reading)
    (hdiff : b.mPinState ≠ toUInt8 r.digitalRead)
    (hold : subULong (toULong r.millis) b.mLastPinStateChangeTime > b.mDebounceDuration) :
    (read b r).1.mPinState = toUInt8 r.digitalRead ∧
    (read b r).1.mLastPinStateChangeTime = toULong r.millis ∧
    (toUInt8 r.digitalRead = LOW → (read b r).1.mState = State.StatePressed) ∧
    (toUInt8 r.digitalRead ≠ LOW → (read b r).1.mState = State.StateReleased) ∧
    (toUInt8 r.digitalRead = LOW → b.mState ≠ State.StatePressed →
      (read b r).1.mLastPressedStateChangeTime = toULong r.millisSetState) := by
  rw [read_eq, if_pos hdiff, if_pos hold]
  by_cases hlow : toUInt8 r.digitalRead = LOW
  · rw [if_pos hlow]
    refine ⟨?_, ?_, ?_, ?_, ?_⟩
    · rw [(setState_frame _ _ _).1]
    · rw [(setState_frame _ _ _).2.1]
    · intro _
      exact setState_mState _ _ _
    · intro h
      exact absurd hlow h
    · intro _ hs
      simp [setState, hs]
  · rw [if_neg hlow]
    refine ⟨?_, ?_, ?_, ?_, ?_⟩
    · rw [(setState_frame _ _ _).1]
    · rw [(setState_frame _ _ _).2.1]
    · intro h
      exact absurd h hlow
    · intro _
      exact setState_mState _ _ _
    · intro h
      exact absurd h hlow

/-- Witness of C2: the released sample button reads `LOW` at time 1130. -/
theorem read_accepts_level_change_witness :
    (read sampleReleased ⟨LOW, 1130, 1131⟩).1.mPinState = LOW ∧
    (read sampleReleased ⟨LOW, 1130, 1131⟩).1.mLastPinStateChangeTime = 1130 ∧
    (read sampleReleased ⟨LOW, 1130, 1131⟩).1.mState = State.StatePressed ∧
    (read sampleReleased ⟨LOW, 1130, 1131⟩).1.mLastPressedStateChangeTime = 1131 := by
  have h := read_accepts_level_change sampleReleased ⟨LOW, 1130, 1131⟩
    (by decide) (by decide)
  exact ⟨h.1, h.2.1, h.2.2.1 (by decide), h.2.2.2.2 (by decide) (by decide)⟩

/-- C3: a read whose level differs from the stored level, taken no more than the
debounce duration after the last accepted change, changes no data member and
invokes no callback; the long-press test is not made. -/
theorem read_rejects_within_debounce (b : Button) (r : Reading)
    (hdiff : b.mPinState ≠ toUInt8 r.digitalRead)
    (hwin : subULong (toULong r.millis) b.mLastPinStateChangeTime ≤ b.mDebounceDuration) :
    read b r = (b, []) := by
  rw [read_eq, if_pos hdiff, if_neg (Nat.not_lt.mpr hwin)]

/-- Witness of C3: the pressed sample button, with its last accepted change at
time 2000, reads `HIGH` at time 2100; nothing changes, although the press is
1970 ms old. -/
theorem read_rejects_within_debounce_witness :
    read { samplePressed with mLastPinStateChangeTime := 2000 } ⟨HIGH, 2100, 2100⟩
      = ({ samplePressed with mLastPinStateChangeTime := 2000 }, []) :=
  read_rejects_within_debounce _ _ (by decide) (by decide)

/-- C4: in the pressed state, a read of the stored level taken more than the
long-press threshold after the time of the last press moves the state to
long-pressed and changes no other data member; the trace is the long-pressed
notification followed by the state-change notification, so a registered
long-pressed callback is the one event callback invoked. -/
theorem read_long_press (b : Button) (r : Reading)
    (hs : b.mState = State.StatePressed)
    (hsame : b.mPinState = toUInt8 r.digitalRead)
    (hlong : subULong (toULong r.millis) b.mLastPressedStateChangeTime
      > b.mLongPressThreshold) :
    (read b r).1.mState = State.StateLongPressed ∧
    (read b r).1.mPinState = b.mPinState ∧
    (read b r).1.mLastPinStateChangeTime = b.mLastPinStateChangeTime ∧
    (read b r).1.mLastPressedStateChangeTime = b.mLastPressedStateChangeTime ∧
    (read b r).1 = { b with mState := State.StateLongPressed } ∧
    (read b r).2 = notifyLongPressed b ++
      notifyStateChange { b with mState := State.StateLongPressed } ∧
    (∀ f, b.mOnLongPressedCallback = some f →
      eventNotifications (read b r).2 = [Event.longPressed f]) := by
  have hne : ¬ (b.mPinState ≠ toUInt8 r.digitalRead) := fun h => h hsame
  rw [read_eq, if_neg hne, if_pos ⟨hs, hlong⟩]
  have hst : setState b State.StateLongPressed r.millisSetState =
      ({ b with mState := State.StateLongPressed },
        notifyLongPressed b ++
          notifyStateChange { b with mState := State.StateLongPressed }) := by
    simp [setState, hs]
  rw [hst]
  refine ⟨rfl, rfl, rfl, rfl, rfl, rfl, ?_⟩
  intro f hf
  cases hg : b.mOnStateChangedCallback <;>
    simp [eventNotifications, notifyLongPressed, notifyStateChange, hf, hg,
      Event.isStateChanged]

/-- Witness of C4: the pressed sample button reads `LOW` at time 1135. -/
theorem read_long_press_witness :
    (read samplePressed ⟨LOW, 1135, 1135⟩).1.mState = State.StateLongPressed ∧
    eventNotifications (read samplePressed ⟨LOW, 1135, 1135⟩).2 = [Event.longPressed 1] := by
  have h := read_long_press samplePressed ⟨LOW, 1135, 1135⟩ (by decide) (by decide)
    (by decide)
  exact ⟨h.1, h.2.2.2.2.2.2 1 (by decide)⟩

/-- C5: with the four event callbacks registered, a read that moves the state to
released invokes, of the four, exactly the long-press-released callback when the
state before was long-pressed (the released callback is not invoked), and
exactly the released callback when the state before was pressed (the
long-press-released callback is not invoked). -/
theorem read_release_notification (b : Button) (r : Reading) (fl flr fp fr : Nat)
    (h1 : b.mOnLongPressedCallback = some fl)
    (h2 : b.mOnLongPressReleasedCallback = some flr)
    (h3 : b.mOnPressedCallback = some fp)
    (h4 : b.mOnReleasedCallback = some fr)
    (hbefore : b.mState ≠ State.StateReleased)
    (hafter : (read b r).1.mState = State.StateReleased) :
    (b.mState = State.StateLongPressed →
      eventNotifications (read b r).2 = [Event.longPressReleased flr] ∧
      ∀ g, Event.released g ∉ (read b r).2) ∧
    (b.mState = State.StatePressed →
      eventNotifications (read b r).2 = [Event.released fr] ∧
      ∀ g, Event.longPressReleased g ∉ (read b r).2) := by
  rw [read_eq] at hafter ⊢
  cases hg : b.mOnStateChangedCallback <;> cases hst : b.mState <;>
    split_ifs at hafter ⊢ <;>
    simp_all [setState, notifyLongPressed, notifyLongPressReleased, notifyPressed,
      notifyReleased, notifyStateChange, eventNotifications, Event.isStateChanged]

/-- Witness of C5: the long-pressed sample button reads `HIGH` at time 1300. -/
theorem read_release_notification_witness :
    eventNotifications (read sampleLongPressed ⟨HIGH, 1300, 1300⟩).2
      = [Event.longPressReleased 2] ∧
    ∀ g, Event.released g ∉ (read sampleLongPressed ⟨HIGH, 1300, 1300⟩).2 :=
  (read_release_notification sampleLongPressed ⟨HIGH, 1300, 1300⟩ 1 2 3 4
    (by decide) (by decide) (by decide) (by decide) (by decide) (by decide)).1 (by decide)

/-- C6: with the five callbacks registered, the trace of a read is either empty
(and the state is unchanged) or has exactly two entries: the event callback of
the transition made, then the state-change callback, which receives the state
stored after the read. -/
theorem read_trace_shape (b : Button) (r : Reading) (fl flr fp fr fs : Nat)
    (h1 : b.mOnLongPressedCallback = some fl)
    (h2 : b.mOnLongPressReleasedCallback = some flr)
    (h3 : b.mOnPressedCallback = some fp)
    (h4 : b.mOnReleasedCallback = some fr)
    (h5 : b.mOnStateChangedCallback = some fs) :
    ((read b r).2 = [] ∧ (read b r).1.mState = b.mState) ∨
    ((read b r).2 = [Event.pressed fp, Event.stateChanged fs (read b r).1.mState] ∧
      (read b r).1.mState = State.StatePressed ∧ b.mState ≠ State.StatePressed) ∨
    ((read b r).2 = [Event.longPressed fl, Event.stateChanged fs (read b r).1.mState] ∧
      (read b r).1.mState = State.StateLongPressed ∧ b.mState = State.StatePressed) ∨
    ((read b r).2 = [Event.released fr, Event.stateChanged fs (read b r).1.mState] ∧
      (read b r).1.mState = State.StateReleased ∧ b.mState = State.StatePressed) ∨
    ((read b r).2 = [Event.longPressReleased flr,
        Event.stateChanged fs (read b r).1.mState] ∧
      (read b r).1.mState = State.StateReleased ∧
      b.mState = State.StateLongPressed) := by
  rw [read_eq]
  cases hst : b.mState <;>
    split_ifs <;>
    simp_all [setState, notifyLongPressed, notifyLongPressReleased, notifyPressed,
      notifyReleased, notifyStateChange]

/-- Witness of C6: the released sample button reads `LOW` at time 1130; the trace
is the pressed callback, then the state-change callback with the pressed
state. -/
theorem read_trace_shape_witness :
    (read sampleReleased ⟨LOW, 1130, 1130⟩).2
      = [Event.pressed 3, Event.stateChanged 5 State.StatePressed] := by
  have h := read_trace_shape sampleReleased ⟨LOW, 1130, 1130⟩ 1 2 3 4 5
    (by decide) (by decide) (by decide) (by decide) (by decide)
  revert h
  decide

/-- C7: if a read leaves the state long-pressed and the state was not
long-pressed before, then the state before was pressed, the time elapsed since
the last press exceeded the long-press threshold, and the read accepted no level
change: the level read is the stored level, and the stored level and the time
of the last accepted change are unchanged. -/
theorem read_long_pressed_only_from_pressed (b : Button) (r : Reading)
    (hafter : (read b r).1.mState = State.StateLongPressed)
    (hbefore : b.mState ≠ State.StateLongPressed) :
    b.mState = State.StatePressed ∧
    subULong (toULong r.millis) b.mLastPressedStateChangeTime > b.mLongPressThreshold ∧
    b.mPinState = toUInt8 r.digitalRead ∧
    (read b r).1.mPinState = b.mPinState ∧
    (read b r).1.mLastPinStateChangeTime = b.mLastPinStateChangeTime := by
  rw [read_eq] at hafter ⊢
  cases hst : b.mState <;>
    split_ifs at hafter ⊢ <;>
    simp_all [setState, notifyLongPressed, notifyLongPressReleased, notifyPressed,
      notifyReleased, notifyStateChange]

/-- Witness of C7: the pressed sample button reads `LOW` at time 1135 and becomes
long-pressed. -/
theorem read_long_pressed_only_from_pressed_witness :
    samplePressed.mState = State.StatePressed ∧
    subULong (toULong 1135) samplePressed.mLastPressedStateChangeTime
      > samplePressed.mLongPressThreshold ∧
    samplePressed.mPinState = toUInt8 LOW ∧
    (read samplePressed ⟨LOW, 1135, 1135⟩).1.mPinState = samplePressed.mPinState ∧
    (read samplePressed ⟨LOW, 1135, 1135⟩).1.mLastPinStateChangeTime
      = samplePressed.mLastPinStateChangeTime :=
  read_long_pressed_only_from_pressed samplePressed ⟨LOW, 1135, 1135⟩
    (by decide) (by decide)

/-! ## Transitions in reachable states -/

/-- C8: in every state reachable from a button constructed on a pin by calls of
`read()` and of the setters, one call of `read()` takes the state neither from
released to long-pressed nor from long-pressed to pressed. -/
theorem read_no_direct_transition (aPinNumber t0 t1 : Nat) (b : Button) (r : Reading)
    (hreach : ReachableFrom (Button.newPin aPinNumber t0 t1) b) :
    ¬ (b.mState = State.StateReleased ∧
        (read b r).1.mState = State.StateLongPressed) ∧
    ¬ (b.mState = State.StateLongPressed ∧
        (read b r).1.mState = State.StatePressed) := by
  have hinv : PressedIsLow b :=
    reachableFrom_pressedIsLow _ b (new_pressedIsLow aPinNumber t0 t1).2 hreach
  unfold PressedIsLow at hinv
  rw [read_eq]
  cases hst : b.mState <;>
    split_ifs <;>
    simp_all [setState, notifyLongPressed, notifyLongPressReleased, notifyPressed,
      notifyReleased, notifyStateChange]

/-- Witness of C8: the released sample button, which is reachable, reads `LOW`
at time 5000. -/
theorem read_no_direct_transition_witness :
    ¬ (sampleReleased.mState = State.StateReleased ∧
        (read sampleReleased ⟨LOW, 5000, 5000⟩).1.mState = State.StateLongPressed) ∧
    ¬ (sampleReleased.mState = State.StateLongPressed ∧
        (read sampleReleased ⟨LOW, 5000, 5000⟩).1.mState = State.StatePressed) :=
  read_no_direct_transition 2 0 0 sampleReleased ⟨LOW, 5000, 5000⟩ sampleReleased_reachable

/-- Reachability matters in C8: from a long-pressed state whose stored level is
`HIGH`, which no run reaches, a read of `LOW` leads to the pressed state. -/
theorem unreachable_long_pressed_to_pressed :
    (read { sampleLongPressed with mPinState := HIGH } ⟨LOW, 5000, 5000⟩).1.mState
      = State.StatePressed := by decide

/-! ## Sequences of reads -/

/-- C9 as stated fails.  Reads taken 50 ms apart, with a debounce duration of
120 ms, change the state: the released sample button, whose last accepted change
is at time 1000, reads `LOW` at times 1050, 1100 and 1150 and is pressed after
the third read; the pressed sample button, pressed at time 130, reads `LOW` at
times 1100 and 1150 and is long-pressed afterwards. -/
theorem closely_spaced_reads_change_state :
    (closelySpaced sampleReleased.mDebounceDuration
        [⟨LOW, 1050, 1050⟩, ⟨LOW, 1100, 1100⟩, ⟨LOW, 1150, 1150⟩] = true ∧
      (readAll sampleReleased
        [⟨LOW, 1050, 1050⟩, ⟨LOW, 1100, 1100⟩, ⟨LOW, 1150, 1150⟩]).1.mState
        ≠ sampleReleased.mState) ∧
    (closelySpaced samplePressed.mDebounceDuration
        [⟨LOW, 1100, 1100⟩, ⟨LOW, 1150, 1150⟩] = true ∧
      (readAll samplePressed [⟨LOW, 1100, 1100⟩, ⟨LOW, 1150, 1150⟩]).1.mState
        ≠ samplePressed.mState) := by
  decide

/-- C9 as amended: when every read of a sequence is taken no more than the
debounce duration after the last accepted change, then after every read of the
sequence the stored level and the time of the last accepted change are as
before the sequence, and the state is as before the sequence or has gone from
pressed to long-pressed; when the state before the sequence is not pressed,
nothing changes and no callback is invoked. -/
theorem reads_within_window_accept_nothing (b : Button) (rs : List Reading)
    (hwin : ∀ r ∈ rs,
      subULong (toULong r.millis) b.mLastPinStateChangeTime ≤ b.mDebounceDuration)
    (k : Nat) :
    (readAll b (rs.take k)).1.mPinState = b.mPinState ∧
    (readAll b (rs.take k)).1.mLastPinStateChangeTime = b.mLastPinStateChangeTime ∧
    ((readAll b (rs.take k)).1.mState = b.mState ∨
      (b.mState = State.StatePressed ∧
        (readAll b (rs.take k)).1.mState = State.StateLongPressed)) ∧
    (b.mState ≠ State.StatePressed → readAll b (rs.take k) = (b, [])) := by
  induction rs generalizing b k with
  | nil => simp [readAll]
  | cons r rs ih =>
    cases k with
    | zero => simp [readAll]
    | succ k =>
      have hr := hwin r (List.mem_cons_self r rs)
      have hrest : ∀ x ∈ rs,
          subULong (toULong x.millis) b.mLastPinStateChangeTime ≤ b.mDebounceDuration :=
        fun x hx => hwin x (List.mem_cons_of_mem r hx)
      simp only [List.take_succ_cons, readAll]
      rcases read_within_window b r hr with h | ⟨hp, h⟩
      · rw [h]
        have := ih b hrest k
        simpa using this
      · rw [h]
        have := ih { b with mState := State.StateLongPressed } hrest k
        have h4 := this.2.2.2 (by simp)
        rw [h4]
        simp [hp]

/-- Witness of C9 as amended: the long-pressed sample button, with its last
accepted change at time 130, reads `HIGH` at times 150, 200 and 250. -/
theorem reads_within_window_accept_nothing_witness :
    readAll sampleLongPressed
      ([⟨HIGH, 150, 150⟩, ⟨HIGH, 200, 200⟩, ⟨HIGH, 250, 250⟩].take 3)
      = (sampleLongPressed, []) :=
  (reads_within_window_accept_nothing sampleLongPressed
    [⟨HIGH, 150, 150⟩, ⟨HIGH, 200, 200⟩, ⟨HIGH, 250, 250⟩] (by decide) 3).2.2.2
    (by decide)

/-! ## Accepted level changes -/

/-- C10 as stated fails.  A button constructed on pin 2, with the state-change
callback registered, reads `HIGH` at time 200 (timestamp members holding 0): the
level differs from the stored `LOW` and 200 ms exceed the debounce duration, so
the read is accepted, but the state stays released and no callback is
invoked. -/
theorem first_accepted_read_makes_no_transition :
    ReachableFrom (Button.newPin 2 0 0)
      (setOnStateChangedCallback (Button.newPin 2 0 0) (some 5)) ∧
    (setOnStateChangedCallback (Button.newPin 2 0 0) (some 5)).mOnStateChangedCallback
      = some 5 ∧
    (setOnStateChangedCallback (Button.newPin 2 0 0) (some 5)).mPinState ≠ toUInt8 HIGH ∧
    subULong (toULong 200)
        (setOnStateChangedCallback (Button.newPin 2 0 0) (some 5)).mLastPinStateChangeTime
      > (setOnStateChangedCallback (Button.newPin 2 0 0) (some 5)).mDebounceDuration ∧
    read (setOnStateChangedCallback (Button.newPin 2 0 0) (some 5)) ⟨HIGH, 200, 200⟩
      = ({ setOnStateChangedCallback (Button.newPin 2 0 0) (some 5) with
            mPinState := HIGH, mLastPinStateChangeTime := 200 }, []) ∧
    (read (setOnStateChangedCallback (Button.newPin 2 0 0) (some 5))
        ⟨HIGH, 200, 200⟩).1.mState
      = (setOnStateChangedCallback (Button.newPin 2 0 0) (some 5)).mState :=
  ⟨ReachableFrom.setOnStateChangedCallback _ _ ReachableFrom.start,
    by decide, by decide, by decide, by decide, by decide⟩

/-- C10 as amended: in every state reachable from a button constructed on a pin,
with the state-change callback registered, a read that accepts a level change
makes exactly one transition, to pressed for `LOW` and to released otherwise,
and invokes the state-change callback exactly once, unless the state is already
released and the accepted level is not `LOW`; in that case the stored level and
the time of the last change are updated, the state stays released and no
callback is invoked. -/
theorem read_accept_transition (aPinNumber t0 t1 : Nat) (b : Button) (r : Reading)
    (fs : Nat)
    (hreach : ReachableFrom (Button.newPin aPinNumber t0 t1) b)
    (hcb : b.mOnStateChangedCallback = some fs)
    (hdiff : b.mPinState ≠ toUInt8 r.digitalRead)
    (hold : subULong (toULong r.millis) b.mLastPinStateChangeTime > b.mDebounceDuration) :
    (¬ (b.mState = State.StateReleased ∧ toUInt8 r.digitalRead ≠ LOW) →
      (read b r).1.mState ≠ b.mState ∧
      (toUInt8 r.digitalRead = LOW → (read b r).1.mState = State.StatePressed) ∧
      (toUInt8 r.digitalRead ≠ LOW → (read b r).1.mState = State.StateReleased) ∧
      stateChangeNotifications (read b r).2
        = [Event.stateChanged fs (read b r).1.mState]) ∧
    ((b.mState = State.StateReleased ∧ toUInt8 r.digitalRead ≠ LOW) →
      (read b r).1.mState = b.mState ∧ (read b r).2 = [] ∧
      (read b r).1.mPinState = toUInt8 r.digitalRead ∧
      (read b r).1.mLastPinStateChangeTime = toULong r.millis) := by
  have hinv : PressedIsLow b :=
    reachableFrom_pressedIsLow _ b (new_pressedIsLow aPinNumber t0 t1).2 hreach
  unfold PressedIsLow at hinv
  rw [read_eq, if_pos hdiff, if_pos hold]
  cases hst : b.mState <;>
    cases h1 : b.mOnLongPressedCallback <;>
    cases h2 : b.mOnLongPressReleasedCallback <;>
    cases h3 : b.mOnPressedCallback <;>
    cases h4 : b.mOnReleasedCallback <;>
    split_ifs <;>
    simp_all [setState, notifyLongPressed, notifyLongPressReleased, notifyPressed,
      notifyReleased, notifyStateChange, stateChangeNotifications, Event.isStateChanged]

/-- Witness of C10 as amended: the released sample button, which is reachable,
reads `LOW` at time 1130. -/
theorem read_accept_transition_witness :
    (read sampleReleased ⟨LOW, 1130, 1130⟩).1.mState ≠ sampleReleased.mState ∧
    (read sampleReleased ⟨LOW, 1130, 1130⟩).1.mState = State.StatePressed ∧
    stateChangeNotifications (read sampleReleased ⟨LOW, 1130, 1130⟩).2
      = [Event.stateChanged 5 (read sampleReleased ⟨LOW, 1130, 1130⟩).1.mState] := by
  have h := (read_accept_transition 2 0 0 sampleReleased ⟨LOW, 1130, 1130⟩ 5
    sampleReleased_reachable (by decide) (by decide) (by decide)).1 (by decide)
  exact ⟨h.1, h.2.1 (by decide), h.2.2.2⟩

/-! ## Further facts used below -/

/-- Unsigned subtraction is the integer difference reduced modulo `2^32`. -/
theorem subULong_eq_emod (a b : Nat) :
    ((subULong (toULong a) b : Nat) : Int) = ((a : Int) - (b : Int)) % 4294967296 := by
  unfold subULong toULong ULONG_RANGE
  omega

/-- A read of the stored level that does not meet the long-press condition
changes nothing. -/
theorem read_same_level_idle (b : Button) (r : Reading)
    (hsame : b.mPinState = toUInt8 r.digitalRead)
    (hidle : ¬ (b.mState = State.StatePressed ∧
      subULong (toULong r.millis) b.mLastPressedStateChangeTime > b.mLongPressThreshold)) :
    read b r = (b, []) := by
  have hne : ¬ (b.mPinState ≠ toUInt8 r.digitalRead) := fun h => h hsame
  rw [read_eq, if_neg hne, if_neg hidle]

/-- Reads of the stored level change nothing when the state is not pressed. -/
theorem readAll_same_level_idle (b : Button) (rs : List Reading)
    (hs : b.mState ≠ State.StatePressed)
    (hsame : ∀ r ∈ rs, toUInt8 r.digitalRead = b.mPinState) :
    readAll b rs = (b, []) := by
  induction rs with
  | nil => rfl
  | cons r rs ih =>
    have h1 : read b r = (b, []) :=
      read_same_level_idle b r (hsame r (List.mem_cons_self r rs)).symm
        (fun h => hs h.1)
    have h2 := ih (fun x hx => hsame x (List.mem_cons_of_mem r hx))
    simp [readAll, h1, h2]

/-- Clearing a slot removes the invocations of that slot from what each notify
function emits. -/
theorem notify_clearSlot (b : Button) (s : Slot) :
    notifyLongPressed (clearSlot b s)
      = (notifyLongPressed b).filter (fun e => decide (e.slot ≠ s)) ∧
    notifyLongPressReleased (clearSlot b s)
      = (notifyLongPressReleased b).filter (fun e => decide (e.slot ≠ s)) ∧
    notifyPressed (clearSlot b s)
      = (notifyPressed b).filter (fun e => decide (e.slot ≠ s)) ∧
    notifyReleased (clearSlot b s)
      = (notifyReleased b).filter (fun e => decide (e.slot ≠ s)) ∧
    notifyStateChange (clearSlot b s)
      = (notifyStateChange b).filter (fun e => decide (e.slot ≠ s)) := by
  refine ⟨?_, ?_, ?_, ?_, ?_⟩
  · cases s <;> cases h : b.mOnLongPressedCallback <;>
      simp [notifyLongPressed, clearSlot, setOnLongPressedCallback,
        setOnLongPressReleasedCallback, setOnPressedCallback, setOnReleasedCallback,
        setOnStateChangedCallback, Event.slot, h]
  · cases s <;> cases h : b.mOnLongPressReleasedCallback <;>
      simp [notifyLongPressReleased, clearSlot, setOnLongPressedCallback,
        setOnLongPressReleasedCallback, setOnPressedCallback, setOnReleasedCallback,
        setOnStateChangedCallback, Event.slot, h]
  · cases s <;> cases h : b.mOnPressedCallback <;>
      simp [notifyPressed, clearSlot, setOnLongPressedCallback,
        setOnLongPressReleasedCallback, setOnPressedCallback, setOnReleasedCallback,
        setOnStateChangedCallback, Event.slot, h]
  · cases s <;> cases h : b.mOnReleasedCallback <;>
      simp [notifyReleased, clearSlot, setOnLongPressedCallback,
        setOnLongPressReleasedCallback, setOnPressedCallback, setOnReleasedCallback,
        setOnStateChangedCallback, Event.slot, h]
  · cases s <;> cases h : b.mOnStateChangedCallback <;>
      simp [notifyStateChange, clearSlot, setOnLongPressedCallback,
        setOnLongPressReleasedCallback, setOnPressedCallback, setOnReleasedCallback,
        setOnStateChangedCallback, Event.slot, h]

/-- Clearing a slot leaves the members other than that slot as they are. -/
theorem clearSlot_fields (b : Button) (s : Slot) :
    (clearSlot b s).mState = b.mState ∧ (clearSlot b s).mPinState = b.mPinState ∧
    (clearSlot b s).mLastPinStateChangeTime = b.mLastPinStateChangeTime ∧
    (clearSlot b s).mLastPressedStateChangeTime = b.mLastPressedStateChangeTime ∧
    (clearSlot b s).mPinNumber = b.mPinNumber ∧
    (clearSlot b s).mDebounceDuration = b.mDebounceDuration ∧
    (clearSlot b s).mLongPressThreshold = b.mLongPressThreshold := by
  cases s <;> exact ⟨rfl, rfl, rfl, rfl, rfl, rfl, rfl⟩

/-- The trace of `setState` after clearing a slot is the trace without the
invocations of that slot. -/
theorem setState_clearSlot (b : Button) (s : Slot) (aState : State) (millis : Nat) :
    (setState (clearSlot b s) aState millis).2
      = (setState b aState millis).2.filter (fun e => decide (e.slot ≠ s)) := by
  obtain ⟨n1, n2, n3, n4, _⟩ := notify_clearSlot b s
  have n5 := (notify_clearSlot { b with mState := aState } s).2.2.2.2
  have n6 := (notify_clearSlot
    { b with mLastPressedStateChangeTime := toULong millis, mState := aState } s).2.2.2.2
  have hs := (clearSlot_fields b s).1
  have c5 : notifyStateChange { clearSlot b s with mState := aState }
      = notifyStateChange (clearSlot { b with mState := aState } s) := by
    cases s <;> rfl
  have c6 : notifyStateChange { clearSlot b s with
        mLastPressedStateChangeTime := toULong millis, mState := aState }
      = notifyStateChange (clearSlot { b with
          mLastPressedStateChangeTime := toULong millis, mState := aState } s) := by
    cases s <;> rfl
  unfold setState
  rw [hs]
  by_cases h : b.mState = aState
  · simp [h]
  · cases aState
    · by_cases hl : b.mState = State.StateLongPressed
      · simp [h, hl, n2, c5, n5, List.filter_append]
      · simp [h, hl, n4, c5, n5, List.filter_append]
    · simp [h, n3, c6, n6, List.filter_append]
    · simp [h, n1, c5, n5, List.filter_append]

/-- A differing read within the debounce window changes nothing. -/
theorem read_of_within_window (b : Button) (r : Reading)
    (hdiff : b.mPinState ≠ toUInt8 r.digitalRead)
    (hwin : ¬ subULong (toULong r.millis) b.mLastPinStateChangeTime > b.mDebounceDuration) :
    read b r = (b, []) := by
  rw [read_eq, if_pos hdiff, if_neg hwin]

/-- An accepted read stores the level and the time of the read, and the state
follows the level. -/
theorem read_of_accept (b : Button) (r : Reading)
    (hdiff : b.mPinState ≠ toUInt8 r.digitalRead)
    (hold : subULong (toULong r.millis) b.mLastPinStateChangeTime > b.mDebounceDuration) :
    (read b r).1.mPinState = toUInt8 r.digitalRead ∧
    (read b r).1.mLastPinStateChangeTime = toULong r.millis ∧
    (toUInt8 r.digitalRead ≠ LOW → (read b r).1.mState = State.StateReleased) := by
  rw [read_eq, if_pos hdiff, if_pos hold]
  split_ifs with hlow
  · exact ⟨(setState_frame _ _ _).1, (setState_frame _ _ _).2.1, fun h => absurd hlow h⟩
  · exact ⟨(setState_frame _ _ _).1, (setState_frame _ _ _).2.1,
      fun _ => setState_mState _ _ _⟩

/-- From a released button that stores `LOW`, a run that leaves the released
state has stored a level other than `LOW` before its last read. -/
theorem leaves_released_after_accepting (b : Button) (rs : List Reading)
    (hs : b.mState = State.StateReleased) (hl : b.mPinState = LOW)
    (hfin : (readAll b rs).1.mState ≠ State.StateReleased) :
    ∃ k, k < rs.length ∧ (readAll b (rs.take k)).1.mPinState ≠ LOW := by
  induction rs generalizing b with
  | nil => exact absurd hs hfin
  | cons r rs ih =>
    by_cases hstep : read b r = (b, [])
    · have hfin2 : (readAll b rs).1.mState ≠ State.StateReleased := by
        simpa [readAll, hstep] using hfin
      obtain ⟨k, hk, hk2⟩ := ih b hs hl hfin2
      refine ⟨k + 1, by simpa using hk, ?_⟩
      simpa [readAll, hstep] using hk2
    · have hdiff : b.mPinState ≠ toUInt8 r.digitalRead := by
        intro hsame
        exact hstep (read_same_level_idle b r hsame (fun h => by
          rw [hs] at h
          exact absurd h.1 (by decide)))
      have hold : subULong (toULong r.millis) b.mLastPinStateChangeTime
          > b.mDebounceDuration := by
        by_contra hno
        exact hstep (read_of_within_window b r hdiff hno)
      obtain ⟨hacc, _, hrel⟩ := read_of_accept b r hdiff hold
      have hnl : toUInt8 r.digitalRead ≠ LOW := by
        rw [hl] at hdiff
        exact fun h => hdiff h.symm
      refine ⟨1, ?_, ?_⟩
      · cases rs with
        | nil =>
          exfalso
          apply hfin
          simpa [readAll] using hrel hnl
        | cons x xs => simp
      · simp only [List.take_succ_cons, List.take_zero, readAll]
        rw [hacc]
        exact hnl


/-! ## Scenarios -/

/-- C13 (the code departs from the claim): for a button constructed by either
constructor, `getDebounceDuration()` returns 120 and `getState()` returns the
released state, but `getLongPressThreshold()`, whose return type is `uint8_t`,
returns 232 although the member holds 1000. -/
theorem new_button_getters (aPinNumber t0 t1 : Nat) :
    getDebounceDuration (Button.new t0 t1) = 120 ∧
    getState (Button.new t0 t1) = State.StateReleased ∧
    (Button.new t0 t1).mLongPressThreshold = 1000 ∧
    getLongPressThreshold (Button.new t0 t1) = 232 ∧
    getDebounceDuration (Button.newPin aPinNumber t0 t1) = 120 ∧
    getState (Button.newPin aPinNumber t0 t1) = State.StateReleased ∧
    (Button.newPin aPinNumber t0 t1).mLongPressThreshold = 1000 ∧
    getLongPressThreshold (Button.newPin aPinNumber t0 t1) = 232 := by
  have h : toUInt8 (intToUInt16 DEFAULT_LONG_PRESS_THRESHOLD) = 232 := by decide
  exact ⟨rfl, rfl, rfl, h, rfl, rfl, rfl, h⟩

/-- C15: every setter changes only its own member (putting the old value back
gives the button before the call), so the state, the stored level, the two
timestamps and the other configuration members are unchanged; a call of a
setter invokes no callback. -/
theorem setters_frame (b : Button) (n : Nat) (cb : Callback) (op : Op)
    (hop : op.isSetter = true) :
    ((step b op).2 = [] ∧ sameMachine b (step b op).1) ∧
    ({ setDebounceDuration b n with mDebounceDuration := b.mDebounceDuration } = b) ∧
    ({ setLongPressThreshold b n with mLongPressThreshold := b.mLongPressThreshold } = b) ∧
    ({ setPinNumber b n with mPinNumber := b.mPinNumber } = b) ∧
    ({ setOnLongPressedCallback b cb with
        mOnLongPressedCallback := b.mOnLongPressedCallback } = b) ∧
    ({ setOnLongPressReleasedCallback b cb with
        mOnLongPressReleasedCallback := b.mOnLongPressReleasedCallback } = b) ∧
    ({ setOnPressedCallback b cb with mOnPressedCallback := b.mOnPressedCallback } = b) ∧
    ({ setOnReleasedCallback b cb with mOnReleasedCallback := b.mOnReleasedCallback } = b) ∧
    ({ setOnStateChangedCallback b cb with
        mOnStateChangedCallback := b.mOnStateChangedCallback } = b) := by
  refine ⟨?_, rfl, rfl, rfl, rfl, rfl, rfl, rfl, rfl⟩
  cases op <;> simp_all [Op.isSetter, step, sameMachine, setDebounceDuration,
    setLongPressThreshold, setPinNumber, setOnLongPressedCallback,
    setOnLongPressReleasedCallback, setOnPressedCallback, setOnReleasedCallback,
    setOnStateChangedCallback]

/-- Witness of C15: clearing the released callback of the pressed sample
button. -/
theorem setters_frame_witness :
    (step samplePressed (Op.setOnReleasedCallback none)).2 = [] ∧
    sameMachine samplePressed (step samplePressed (Op.setOnReleasedCallback none)).1 :=
  (setters_frame samplePressed 0 none (Op.setOnReleasedCallback none) rfl).1

/-! ## Clock overflow -/

/-- C16: both tests of `read()` use the difference of the two clock values
reduced modulo `2^32`.  A differing read is accepted exactly when
`(now - last change) mod 2^32` exceeds the debounce duration, and a read of the
stored level in the pressed state enters the long-pressed state exactly when
`(now - last press) mod 2^32` exceeds the threshold; this covers the reads taken
after the clock has wrapped, where `now` is below the stored time. -/
theorem read_elapsed_wraps (b : Button) (r : Reading) :
    (b.mPinState ≠ toUInt8 r.digitalRead →
      (((read b r).1.mPinState = toUInt8 r.digitalRead ∧
          (read b r).1.mLastPinStateChangeTime = toULong r.millis) ↔
        ((r.millis : Int) - (b.mLastPinStateChangeTime : Int)) % 2 ^ 32
          > (b.mDebounceDuration : Int))) ∧
    (b.mPinState = toUInt8 r.digitalRead → b.mState = State.StatePressed →
      ((read b r).1.mState = State.StateLongPressed ↔
        ((r.millis : Int) - (b.mLastPressedStateChangeTime : Int)) % 2 ^ 32
          > (b.mLongPressThreshold : Int))) := by
  have e1 := subULong_eq_emod r.millis b.mLastPinStateChangeTime
  have e2 := subULong_eq_emod r.millis b.mLastPressedStateChangeTime
  have p : (2 : Int) ^ 32 = 4294967296 := by norm_num
  rw [p, ← e1, ← e2]
  constructor
  · intro hdiff
    rw [read_eq, if_pos hdiff]
    by_cases hold : subULong (toULong r.millis) b.mLastPinStateChangeTime
        > b.mDebounceDuration
    · rw [if_pos hold]
      have hf1 := (read_of_accept b r hdiff hold).1
      have hf2 := (read_of_accept b r hdiff hold).2.1
      rw [read_eq, if_pos hdiff, if_pos hold] at hf1 hf2
      constructor
      · intro _
        exact_mod_cast hold
      · intro _
        exact ⟨hf1, hf2⟩
    · rw [if_neg hold]
      constructor
      · intro h
        exact absurd h.1 hdiff
      · intro h
        exact absurd (by exact_mod_cast h) hold
  · intro hsame hs
    have hne : ¬ (b.mPinState ≠ toUInt8 r.digitalRead) := fun h => h hsame
    rw [read_eq, if_neg hne]
    by_cases hlong : subULong (toULong r.millis) b.mLastPressedStateChangeTime
        > b.mLongPressThreshold
    · rw [if_pos ⟨hs, hlong⟩]
      constructor
      · intro _
        exact_mod_cast hlong
      · intro _
        exact setState_mState _ _ _
    · rw [if_neg (fun h => hlong h.2)]
      constructor
      · intro h
        rw [hs] at h
        exact absurd h (by decide)
      · intro h
        exact absurd (by exact_mod_cast h) hlong

/-- Witness of C16: last change at `2^32 - 10`, read of `LOW` at time 200 with a
debounce duration of 120 ms; the elapsed time is 210 ms and the read is
accepted. -/
theorem read_elapsed_wraps_witness :
    (200 : Nat) < sampleBeforeWrap.mLastPinStateChangeTime ∧
    (read sampleBeforeWrap ⟨LOW, 200, 200⟩).1.mPinState = toUInt8 LOW ∧
    (read sampleBeforeWrap ⟨LOW, 200, 200⟩).1.mLastPinStateChangeTime = toULong 200 :=
  ⟨by decide,
    ((read_elapsed_wraps sampleBeforeWrap ⟨LOW, 200, 200⟩).1 (by decide)).2 (by decide)⟩

/-! ## Idle reads and callback slots -/

/-- C17: a read of the stored level, unless the state is pressed and the time
elapsed since the last press exceeds the threshold, changes no member and
invokes no callback; in particular, in the long-pressed state any sequence of
reads of the stored level changes nothing and does not invoke the long-pressed
callback again. -/
theorem read_same_level_no_action (b : Button) (r : Reading) (rs : List Reading)
    (hsame : b.mPinState = toUInt8 r.digitalRead)
    (hidle : ¬ (b.mState = State.StatePressed ∧
      subULong (toULong r.millis) b.mLastPressedStateChangeTime > b.mLongPressThreshold)) :
    read b r = (b, []) ∧
    (b.mState = State.StateLongPressed →
      (∀ x ∈ rs, toUInt8 x.digitalRead = b.mPinState) →
      readAll b rs = (b, []) ∧ ∀ f, Event.longPressed f ∉ (readAll b rs).2) := by
  refine ⟨read_same_level_idle b r hsame hidle, ?_⟩
  intro hs hall
  have h := readAll_same_level_idle b rs (by rw [hs]; decide) hall
  refine ⟨h, ?_⟩
  intro f
  rw [h]
  simp

/-- Witness of C17: the long-pressed sample button reads `LOW` at times 5000 and
9000. -/
theorem read_same_level_no_action_witness :
    read sampleLongPressed ⟨LOW, 5000, 5000⟩ = (sampleLongPressed, []) ∧
    readAll sampleLongPressed [⟨LOW, 5000, 5000⟩, ⟨LOW, 9000, 9000⟩]
      = (sampleLongPressed, []) := by
  have h := read_same_level_no_action sampleLongPressed ⟨LOW, 5000, 5000⟩
    [⟨LOW, 5000, 5000⟩, ⟨LOW, 9000, 9000⟩] (by decide) (by decide)
  exact ⟨h.1, (h.2 (by decide) (by decide)).1⟩

/-- C18: two buttons that differ only in their callback slots agree, after the
same read, on the state, the stored level, the two timestamps and the
configuration; and setting one slot to `nullptr` removes from the trace of the
read exactly the invocations of that slot. -/
theorem read_independent_of_callbacks (b c : Button) (r : Reading) (s : Slot)
    (h : sameExceptCallbacks b c) :
    sameExceptCallbacks (read b r).1 (read c r).1 ∧
    (read (clearSlot b s) r).2 = (read b r).2.filter (fun e => decide (e.slot ≠ s)) := by
  refine ⟨?_, ?_⟩
  · obtain ⟨⟨h1, h2, h3, h4⟩, h5, h6, h7⟩ := h
    unfold sameExceptCallbacks sameMachine
    rw [read_eq, read_eq, h1, h2, h3, h4, h6, h7]
    cases hst : b.mState <;> split_ifs <;> simp_all [setState]
  · rw [read_eq, read_eq]
    cases s <;>
      simp only [clearSlot, setOnLongPressedCallback, setOnLongPressReleasedCallback,
        setOnPressedCallback, setOnReleasedCallback, setOnStateChangedCallback] <;>
      split_ifs <;>
      first
        | rfl
        | (refine Eq.trans ?_ (setState_clearSlot _ _ _ _); rfl)

/-- Witness of C18: the pressed sample button and the same button without its
released callback read `HIGH` at time 500. -/
theorem read_independent_of_callbacks_witness :
    sameExceptCallbacks (read samplePressed ⟨HIGH, 500, 500⟩).1
      (read (clearSlot samplePressed Slot.onReleased) ⟨HIGH, 500, 500⟩).1 ∧
    (read (clearSlot samplePressed Slot.onReleased) ⟨HIGH, 500, 500⟩).2
      = [Event.stateChanged 5 State.StateReleased] := by
  have h := read_independent_of_callbacks samplePressed
    (clearSlot samplePressed Slot.onReleased) ⟨HIGH, 500, 500⟩ Slot.onReleased
    ⟨⟨rfl, rfl, rfl, rfl⟩, rfl, rfl, rfl⟩
  refine ⟨h.1, ?_⟩
  rw [h.2]
  decide

/-! ## The invariant of the reachable states -/

/-- C19: in every state reachable from a newly constructed button, by either
constructor, through calls of `read()` and of the setters, the stored level is
`LOW` when the state is pressed or long-pressed; equivalently the state is
released when the stored level is not `LOW`. -/
theorem reachable_pressed_is_low (b : Button) (h : Reachable b) :
    ((b.mState = State.StatePressed ∨ b.mState = State.StateLongPressed) →
      b.mPinState = LOW) ∧
    (b.mPinState ≠ LOW → b.mState = State.StateReleased) := by
  have hinv : PressedIsLow b := by
    rcases h with ⟨t0, t1, h⟩ | ⟨p, t0, t1, h⟩
    · exact reachableFrom_pressedIsLow _ b (new_pressedIsLow 0 t0 t1).1 h
    · exact reachableFrom_pressedIsLow _ b (new_pressedIsLow p t0 t1).2 h
  unfold PressedIsLow at hinv
  constructor
  · intro hs
    apply hinv
    rcases hs with hs | hs <;> rw [hs] <;> decide
  · intro hl
    by_contra hs
    exact hl (hinv hs)

/-- Witness of C19: the released sample button, which is reachable, after a read
of `LOW` at time 1130. -/
theorem reachable_pressed_is_low_witness :
    (read sampleReleased ⟨LOW, 1130, 1130⟩).1.mState = State.StatePressed ∧
    (read sampleReleased ⟨LOW, 1130, 1130⟩).1.mPinState = LOW := by
  have h := reachable_pressed_is_low (read sampleReleased ⟨LOW, 1130, 1130⟩).1
    (Or.inr ⟨2, 0, 0, ReachableFrom.read _ _ sampleReleased_reachable⟩)
  have hs : (read sampleReleased ⟨LOW, 1130, 1130⟩).1.mState = State.StatePressed := by
    decide
  exact ⟨hs, h.1 (Or.inl hs)⟩

/-- C20: a button constructed on a pin, with any callbacks registered, is
released and stores the level `LOW`, whatever the timestamp members hold; a
sequence of reads that all return `LOW`, at any times, leaves it unchanged and
invokes no callback; and if a sequence of reads leaves the released state, then
a level other than `LOW` has been stored by an earlier read of the sequence. -/
theorem new_button_held_down (aPinNumber t0 t1 : Nat) (b : Button) (rs : List Reading)
    (hb : sameExceptCallbacks (Button.newPin aPinNumber t0 t1) b) :
    (b.mState = State.StateReleased ∧ b.mPinState = LOW) ∧
    ((∀ r ∈ rs, toUInt8 r.digitalRead = LOW) → readAll b rs = (b, [])) ∧
    ((readAll b rs).1.mState ≠ State.StateReleased →
      ∃ k, k < rs.length ∧ (readAll b (rs.take k)).1.mPinState ≠ LOW) := by
  have hs : b.mState = State.StateReleased := hb.1.1
  have hl : b.mPinState = LOW := hb.1.2.1
  refine ⟨⟨hs, hl⟩, ?_, ?_⟩
  · intro hall
    exact readAll_same_level_idle b rs (by rw [hs]; decide)
      (fun r hr => by rw [hl]; exact hall r hr)
  · exact leaves_released_after_accepting b rs hs hl

/-- Witness of C20: a button constructed on pin 2, timestamp members holding 7
and 9, pressed callback registered, reads `LOW` at times 0, 130 and 5000. -/
theorem new_button_held_down_witness :
    readAll (setOnPressedCallback (Button.newPin 2 7 9) (some 3))
        [⟨LOW, 0, 0⟩, ⟨LOW, 130, 130⟩, ⟨LOW, 5000, 5000⟩]
      = (setOnPressedCallback (Button.newPin 2 7 9) (some 3), []) :=
  (new_button_held_down 2 7 9 (setOnPressedCallback (Button.newPin 2 7 9) (some 3))
    [⟨LOW, 0, 0⟩, ⟨LOW, 130, 130⟩, ⟨LOW, 5000, 5000⟩]
    ⟨⟨rfl, rfl, rfl, rfl⟩, rfl, rfl, rfl⟩).2.1 (by decide)

end ArduinoButton
